import Mathlib

/-!
Shallow embedding of the chat-backend server (`main.py`, `ai_handler.py`).

Durable records and live-delivery side effects are made explicit:
a handler turn is embedded as a pure function from its inputs (payload,
handoff set, database snapshot, provider oracle) to the ordered list of
side effects it performs.  Timestamps are naturals (the Python code stores
`datetime` values and renders them via `isoformat`, which is strictly
monotone in the underlying instant for the formats the code produces, so
ordering facts transfer).  WebSocket connections are identified by opaque
numerals.
-/

namespace Chat

/-- A persisted message row (`Message` ORM model in `main.py`):
thread reference, sender role string, body text, timestamp. -/
structure Msg where
  thread_id : Nat
  sender : String
  content : String
  timestamp : Nat
deriving DecidableEq, Repr

/-- An outbound frame pushed to a user socket:
`{"type": ..., "message": ..., "sender": ...}`. -/
structure UserFrame where
  type : String
  message : String
  sender : String
deriving DecidableEq, Repr

/-- An outbound frame broadcast to manager sockets: additionally carries
`chat_id`. -/
structure ManagerFrame where
  chat_id : String
  type : String
  message : String
  sender : String
deriving DecidableEq, Repr

/-- One observable side effect of a handler, in program order. -/
inductive Effect where
  | persist (m : Msg)
  | sendUser (chatId : String) (f : UserFrame)
  | broadcastManagers (f : ManagerFrame)
  | sleep (seconds : Nat)
deriving DecidableEq, Repr

/-- Environment configuration: `OPENAI_KEY` and `ASSISTANT_ID`
(`os.getenv` yields `None` when unset). -/
structure Config where
  openaiKey : Option String
  assistantId : Option String

/-- Python truthiness of an optional string (`None` and `""` are falsy). -/
def truthyStr : Option String → Bool
  | none => false
  | some s => !(s == "")

/-- The guard `if OPENAI_KEY and ASSISTANT_ID` in `websocket_endpoint`. -/
def Config.aiConfigured (cfg : Config) : Bool :=
  truthyStr cfg.openaiKey && truthyStr cfg.assistantId

/-- Outcome of the AI branch (thread creation / `add_user_message` /
`create_run`), abstracted as an oracle: `.ok r` is a completed reply text,
`.error e` is any exception message raised inside the `try` block. -/
abbrev AIOutcome := Except String String

/-- One iteration of the user-socket receive loop in `websocket_endpoint`
(`main.py` lines 152-244), for an inbound payload whose `message` field is
`text`: persist the user message, broadcast it to managers, then — only if
`chat_id` is not in `active_manager_chats` — run the AI path (when
configured) or the echo path.  `tUser`/`tBot` are the timestamps the two
`Message` rows receive; `aiResult` is the provider oracle for this turn. -/
def processUserMessage (cfg : Config) (handoff : List String)
    (chatId : String) (threadId : Nat) (tUser tBot : Nat)
    (text : String) (aiResult : AIOutcome) : List Effect :=
  let echoed : List Effect :=
    [Effect.persist ⟨threadId, "user", text, tUser⟩,
     Effect.broadcastManagers ⟨chatId, "message", text, "user"⟩]
  if handoff.contains chatId then
    echoed
  else if cfg.aiConfigured then
    match aiResult with
    | .ok botResponse =>
        echoed ++
        [Effect.persist ⟨threadId, "bot", botResponse, tBot⟩,
         Effect.sendUser chatId ⟨"message", botResponse, "bot"⟩,
         Effect.broadcastManagers ⟨chatId, "message", botResponse, "bot"⟩]
    | .error e =>
        let botResponse := "Openai error: " ++ e ++ "."
        echoed ++
        [Effect.sendUser chatId ⟨"message", botResponse, "bot"⟩,
         Effect.broadcastManagers ⟨chatId, "message", botResponse, "bot"⟩]
  else
    let botResponse := "Bot echo: " ++ text
    echoed ++
    [Effect.sleep 4,
     Effect.persist ⟨threadId, "bot", botResponse, tBot⟩,
     Effect.sendUser chatId ⟨"message", botResponse, "bot"⟩,
     Effect.broadcastManagers ⟨chatId, "message", botResponse, "bot"⟩]

/-- The loop in `websocket_endpoint` handles inbound frames strictly one
after another: `receive_text` is only awaited again after the previous
iteration finished, so the effects of successive messages on ONE
connection concatenate in arrival order.  Each list element carries one
inbound message's `(text, tUser, tBot, aiResult)`. -/
def userLoopEffects (cfg : Config) (handoff : List String)
    (chatId : String) (threadId : Nat)
    (msgs : List (String × Nat × Nat × AIOutcome)) : List Effect :=
  (msgs.map fun m =>
    processUserMessage cfg handoff chatId threadId m.2.1 m.2.2.1 m.1 m.2.2.2).flatten

/-- Whether an effect persists a row with sender `"bot"`. -/
def Effect.isBotPersist : Effect → Bool
  | .persist m => m.sender == "bot"
  | _ => false

/-- Whether an effect delivers (push or broadcast) a frame with sender
`"bot"`. -/
def Effect.isBotDelivery : Effect → Bool
  | .sendUser _ f => f.sender == "bot"
  | .broadcastManagers f => f.sender == "bot"
  | _ => false

/-! ## User connection registry (`UserConnectionManager`) -/

/-- The registry's `active_connections` dict, chat id → live connection,
with connections identified by numerals. -/
def Registry := String → Option Nat

/-- `connect(chat_id, websocket)`: registers/replaces the entry
(`self.active_connections[chat_id] = websocket`). -/
def Registry.connect (m : Registry) (chatId : String) (ws : Nat) : Registry :=
  fun x => if x = chatId then some ws else m x

/-- `disconnect(chat_id)`: `if chat_id in active_connections: del ...` —
removal is keyed on `chat_id` alone; the method receives no connection and
performs no comparison with the caller's connection. -/
def Registry.disconnect (m : Registry) (chatId : String) : Registry :=
  fun x => if x = chatId then none else m x

/-! ## Database model

Rows in insertion order; `select(...).first()` takes the first row the
query yields, which for these single-table queries is insertion order
unless an `order_by` is present. -/

/-- A `users` row. -/
structure DBUser where
  id : Nat
  chat_id : String
deriving DecidableEq, Repr

/-- A `threads` row. -/
structure DBThread where
  id : Nat
  user_id : Nat
  created_at : Nat
deriving DecidableEq, Repr

/-- Database snapshot: users, threads, messages, in insertion order. -/
structure DB where
  users : List DBUser
  threads : List DBThread
  messages : List Msg
deriving DecidableEq, Repr

/-- `select(User).where(User.chat_id == chat_id)` then `.first()`. -/
def DB.findUser (db : DB) (chatId : String) : Option DBUser :=
  db.users.find? (fun u => u.chat_id == chatId)

/-- `select(Thread).where(Thread.user_id == user.id)
.order_by(Thread.created_at.desc())` then `.first()`: the user's threads
sorted by creation time descending (a stable sort, so ties keep table
order), first row if any. -/
def DB.latestThread (db : DB) (userId : Nat) : Option DBThread :=
  (List.insertionSort (fun a b => b.created_at ≤ a.created_at)
    (db.threads.filter (fun t => t.user_id == userId))).head?

/-- One `{"sender", "text", "timestamp"}` item of the history payload. -/
structure HistoryItem where
  sender : String
  text : String
  timestamp : Nat
deriving DecidableEq, Repr

/-- `select(Message).where(Message.thread_id == thread.id)
.order_by(Message.timestamp.asc())`, rendered as history items. -/
def DB.historyOf (db : DB) (threadId : Nat) : List HistoryItem :=
  (List.insertionSort (fun a b => a.timestamp ≤ b.timestamp)
    (db.messages.filter (fun m => m.thread_id == threadId))).map
    (fun m => ⟨m.sender, m.content, m.timestamp⟩)

/-- The user/thread provisioning block at the top of `websocket_endpoint`
(lines 121-149): unknown identity → create a user row and a thread row;
known identity with no thread → create a thread row; otherwise no
change.  `newUserId`/`newThreadId` are the keys the store assigns. -/
def connectSetup (db : DB) (chatId : String)
    (newUserId newThreadId now : Nat) : DB :=
  match db.findUser chatId with
  | none =>
      { db with users := db.users ++ [⟨newUserId, chatId⟩],
                threads := db.threads ++ [⟨newThreadId, newUserId, now⟩] }
  | some u =>
      match db.latestThread u.id with
      | none => { db with threads := db.threads ++ [⟨newThreadId, u.id, now⟩] }
      | some _ => db

/-! ## Handoff state (`active_manager_chats`, a Python `set`) -/

/-- `set.add`: no-op when already a member. -/
def setAdd (s : List String) (x : String) : List String :=
  if s.contains x then s else s ++ [x]

/-- `set.discard`: removes the element if present, no error otherwise. -/
def setDiscard (s : List String) (x : String) : List String :=
  s.filter (fun y => !(y == x))

/-! ## `POST /manager/send` (`send_manager_message`) -/

/-- The JSON body as the handler reads it with `payload.get(...)`:
an absent key reads as `None`.  `action` is used only through `is None`
and truthiness tests, so an optional string captures its role;
`managerStatus` is used only as a truthiness test after an `is not None`
check, so an optional boolean captures its role. -/
structure ManagerSendPayload where
  chat_id : Option String
  message : Option String
  action : Option String
  managerStatus : Option Bool
deriving DecidableEq, Repr

/-- HTTP-level result of a request handler. -/
inductive ApiResult where
  | ok
  | clientError (code : Nat) (detail : String)
deriving DecidableEq, Repr

/-- A manager-send call's result, the handoff set after the call, and the
side effects it performed in order. -/
structure ManagerSendOutcome where
  result : ApiResult
  handoff : List String
  effects : List Effect
deriving DecidableEq, Repr

/-- `send_manager_message` (`main.py` lines 289-333): validate required
fields; apply the `managerStatus` claim/release toggle to
`active_manager_chats`; look up the user and its latest thread (404 on
either miss); persist the message with sender `"manager"`/`"action"`;
push a frame to the user socket; broadcast a frame to managers.  Note the
three distinct sender computations of the source: the persisted row and
the broadcast test `action is None`, while the user frame tests
truthiness (`if not action`); the broadcast's manager sender string is
`"manager "` as written on line 331. -/
def send_manager_message (p : ManagerSendPayload) (handoff : List String)
    (db : DB) (now : Nat) : ManagerSendOutcome :=
  if !truthyStr p.chat_id || !truthyStr p.message then
    ⟨.clientError 400 "chat_id and message are required", handoff, []⟩
  else
    let chatId := p.chat_id.getD ""
    let message := p.message.getD ""
    let handoff1 :=
      match p.managerStatus with
      | none => handoff
      | some true => setAdd handoff chatId
      | some false => setDiscard handoff chatId
    match db.findUser chatId with
    | none => ⟨.clientError 404 "User not found", handoff1, []⟩
    | some user =>
      match db.latestThread user.id with
      | none => ⟨.clientError 404 "Thread not found", handoff1, []⟩
      | some thread =>
        let rowSender := if p.action.isNone then "manager" else "action"
        let userSender := if !truthyStr p.action then "manager" else "action"
        let bcastSender := if p.action.isNone then "manager " else "action"
        ⟨.ok, handoff1,
         [Effect.persist ⟨thread.id, rowSender, message, now⟩,
          Effect.sendUser chatId ⟨"message", message, userSender⟩,
          Effect.broadcastManagers ⟨chatId, "message", message, bcastSender⟩]⟩

/-! ## `GET /history` (`get_chat_history`) -/

/-- Result of the history surface: a successful JSON list, or an HTTP
error response. -/
inductive HistoryResult where
  | ok (items : List HistoryItem)
  | clientError (code : Nat) (detail : String)
deriving DecidableEq, Repr

/-- Whether a history response is a client error. -/
def HistoryResult.isClientError : HistoryResult → Bool
  | .clientError _ _ => true
  | .ok _ => false

/-- `get_chat_history` (`main.py` lines 336-355): unknown user → `return []`;
user without thread → `return []`; otherwise the thread's messages ordered
by timestamp ascending. -/
def get_chat_history (chatId : String) (db : DB) : HistoryResult :=
  match db.findUser chatId with
  | none => .ok []
  | some user =>
    match db.latestThread user.id with
    | none => .ok []
    | some t => .ok (db.historyOf t.id)

/-! ## `GET /manager/chats` (`get_manager_chats`) -/

/-- One entry of the listing payload. -/
structure ChatEntry where
  id : String
  userName : String
  messages : List HistoryItem
deriving DecidableEq, Repr

/-- Python's `s[-6:]`: the last six characters (the whole string when
shorter). -/
def lastChars (s : String) (n : Nat) : String :=
  ⟨s.data.drop (s.data.length - n)⟩

/-- The per-user body of the loop in `get_manager_chats` (lines 363-379):
a user's latest thread's full ordered history plus the display label
`user.chat_id[-6:]`; a user whose thread query yields no row is skipped
(`if thread:`). -/
def mkChatEntry (db : DB) (u : DBUser) : Option ChatEntry :=
  match db.latestThread u.id with
  | none => none
  | some t => some ⟨u.chat_id, lastChars u.chat_id 6, db.historyOf t.id⟩

/-- Sort key of line 380: the last history item's timestamp, or the empty
string for an empty history.  Timestamps render via `isoformat`, whose
lexicographic order agrees with the instant order, and `""` precedes
every nonempty timestamp string; so the key order is `none` below every
`some`, and `some` ordered by the numeric timestamp. -/
def chatSortKey (c : ChatEntry) : Option Nat :=
  c.messages.getLast?.map (fun m => m.timestamp)

/-- The order on sort keys (`none` = `""` first in ascending order). -/
def keyLe : Option Nat → Option Nat → Bool
  | none, _ => true
  | some _, none => false
  | some a, some b => decide (a ≤ b)

/-- `get_manager_chats` (lines 357-381): build one entry per user that has
a thread, then `chats.sort(key=..., reverse=True)` — a stable sort by the
key descending (insertion sort with a `key a ≥ key b` relation is stable
and so yields the same list Python's stable sort does). -/
def get_manager_chats (db : DB) : List ChatEntry :=
  List.insertionSort (fun a b => keyLe (chatSortKey b) (chatSortKey a) = true)
    (db.users.filterMap (mkChatEntry db))

/-! ## AI responder (`ai_handler.add_user_message`)

The provider API is an oracle: each of the three endpoints the function
calls is a sequence of prescribed responses, indexed by how many times
that endpoint has been called so far.  The unbounded polling loops take
fuel; running out of fuel models an execution that is still polling. -/

/-- A run object as seen in `client.beta.threads.runs.list(...)`. -/
structure ProviderRun where
  id : Nat
  status : String
deriving DecidableEq, Repr

/-- Outcome of one `messages.create` call: success, a `BadRequestError`
whose text contains `"Can't add messages to"`, or any other
`BadRequestError`. -/
inductive CreateResult where
  | ok
  | cantAdd (e : String)
  | otherBad (e : String)
deriving DecidableEq, Repr

/-- The provider oracle.  `submitOutcome k` is the k-th
`submit_tool_outputs` call: `none` = success, `some e` =
`BadRequestError e`. -/
structure ProviderTrace where
  listRuns : Nat → List ProviderRun
  createMsg : Nat → CreateResult
  submitOutcome : Nat → Option String

/-- Call counters plus the observable actions taken so far:
`submitted` records the run ids force-completed via
`submit_tool_outputs`, `sleeps` the `asyncio.sleep(1)` calls. -/
structure AIState where
  kList : Nat
  kCreate : Nat
  kSubmit : Nat
  submitted : List Nat
  sleeps : Nat
deriving DecidableEq, Repr

/-- How `add_user_message` terminates: normal return, a raised
exception, or fuel exhausted inside an unbounded polling loop. -/
inductive AIResult where
  | success
  | raised (e : String)
  | fuelOut
deriving DecidableEq, Repr

/-- The in-progress filter `[run for run in runs if run.status ==
'in_progress']`, keeping the ids. -/
def inProgressIds (runs : List ProviderRun) : List Nat :=
  (runs.filter (fun r => r.status == "in_progress")).map (fun r => r.id)

/-- The polling loops of `add_user_message` (the `while True` at the top
and the inner `check_active_runs`): list runs; if none is in progress,
exit with the (empty) last-observed active list, else sleep one second
and poll again. -/
def waitNoActive (tr : ProviderTrace) (s : AIState) :
    Nat → AIState × Option (List Nat)
  | 0 => (s, none)
  | fuel+1 =>
      let active := inProgressIds (tr.listRuns s.kList)
      let s1 := { s with kList := s.kList + 1 }
      if active.isEmpty then (s1, some active)
      else waitNoActive tr { s1 with sleeps := s1.sleeps + 1 } fuel

/-- Result of the bounded append loop. -/
inductive AppendPhase where
  | sent
  | exhausted
  | raisedAt (e : String)
deriving DecidableEq, Repr

/-- The `while attempt < max_attempts` loop: `messages.create`; on
success return; on a "Can't add messages to" `BadRequestError` sleep a
second and retry; on any other `BadRequestError` re-raise.  `n` is the
number of attempts still allowed (`max_attempts - attempt`). -/
def appendAttempts (tr : ProviderTrace) (s : AIState) :
    Nat → AIState × AppendPhase
  | 0 => (s, .exhausted)
  | n+1 =>
      match tr.createMsg s.kCreate with
      | .ok => ({ s with kCreate := s.kCreate + 1 }, .sent)
      | .cantAdd _ =>
          appendAttempts tr
            { s with kCreate := s.kCreate + 1, sleeps := s.sleeps + 1 } n
      | .otherBad e => ({ s with kCreate := s.kCreate + 1 }, .raisedAt e)

/-- The forced-completion block (`for run in active_runs: ...`): one
`submit_tool_outputs` call per run of the list it is handed; a failing
submit re-raises.  (The source grows one shared `tool_outputs` list
across iterations; only which runs get a submit call and each call's
outcome are observable here, so the state records the run id per
successful call.) -/
def forceCompleteRuns (tr : ProviderTrace) (s : AIState) :
    List Nat → AIState × Option String
  | [] => (s, none)
  | r :: rest =>
      match tr.submitOutcome s.kSubmit with
      | none =>
          forceCompleteRuns tr
            { s with kSubmit := s.kSubmit + 1,
                     submitted := s.submitted ++ [r] } rest
      | some e => ({ s with kSubmit := s.kSubmit + 1 }, some e)

/-- `add_user_message` (`ai_handler.py` lines 32-107): wait until no run
is in progress (keeping the last-observed `active_runs` list); try the
append up to `max_attempts = 5` times; if exhausted, force-complete the
runs of that `active_runs` variable, wait via `check_active_runs`, and
try the append once more, re-raising any `BadRequestError`.  The outer
`except` clauses log and re-raise, so every raised exception propagates
to the caller. -/
def add_user_message (tr : ProviderTrace) (fuel : Nat) :
    AIState × AIResult :=
  let s0 : AIState := ⟨0, 0, 0, [], 0⟩
  match waitNoActive tr s0 fuel with
  | (s1, none) => (s1, .fuelOut)
  | (s1, some active_runs) =>
    match appendAttempts tr s1 5 with
    | (s2, .sent) => (s2, .success)
    | (s2, .raisedAt e) => (s2, .raised e)
    | (s2, .exhausted) =>
      match forceCompleteRuns tr s2 active_runs with
      | (s3, some e) => (s3, .raised e)
      | (s3, none) =>
        match waitNoActive tr s3 fuel with
        | (s4, none) => (s4, .fuelOut)
        | (s4, some _) =>
          match tr.createMsg s4.kCreate with
          | .ok => ({ s4 with kCreate := s4.kCreate + 1 }, .success)
          | .cantAdd e => ({ s4 with kCreate := s4.kCreate + 1 }, .raised e)
          | .otherBad e => ({ s4 with kCreate := s4.kCreate + 1 }, .raised e)

/-! ## Concurrency model

Each live connection runs its own `websocket_endpoint` coroutine.  Every
effect of a turn sits at (or directly beside) an `await` — the database
`begin`/`commit` calls, `asyncio.sleep`, `send_text` — and the handler
takes no lock keyed by `chat_id`, so between any two effects of one
session the event loop may run any number of effects of another session;
awaited operations take arbitrary real time, so every interleaving of two
sessions' effect sequences is a reachable global order.  A superseded
user socket is not closed by `UserConnectionManager.connect`, so two
sessions for the SAME `chat_id` can be live at once. -/

/-- `IsInterleaving xs ys zs`: `zs` is a merge of `xs` and `ys` that
keeps the internal order of each. -/
inductive IsInterleaving : List α → List α → List α → Prop
  | nil : IsInterleaving [] [] []
  | left {x : α} {xs ys zs : List α} :
      IsInterleaving xs ys zs → IsInterleaving (x :: xs) ys (x :: zs)
  | right {y : α} {xs ys zs : List α} :
      IsInterleaving xs ys zs → IsInterleaving xs (y :: ys) (y :: zs)

/-- Bodies of persisted rows with sender `"bot"`, in persistence order. -/
def botBodies (l : List Effect) : List String :=
  l.filterMap fun e =>
    match e with
    | .persist m => if m.sender == "bot" then some m.content else none
    | _ => none

/-- Bodies of all persisted rows, in persistence order. -/
def persistedBodies (l : List Effect) : List String :=
  l.filterMap fun e =>
    match e with
    | .persist m => some m.content
    | _ => none

/-! ## Concrete instances used in counterexamples and witnesses -/

/-- AI not configured: `OPENAI_KEY` and `ASSISTANT_ID` unset. -/
def cfgUnset : Config := ⟨none, none⟩

/-- Session effects of the first concurrently-arriving message `"m1"`
(identity `"u"`, thread 0, echo path). -/
def c9effA : List Effect :=
  processUserMessage cfgUnset [] "u" 0 0 4 "m1" (.error "")

/-- Session effects of the second concurrently-arriving message `"m2"`
for the same identity, handled by a second live connection. -/
def c9effB : List Effect :=
  processUserMessage cfgUnset [] "u" 0 1 5 "m2" (.error "")

/-- A reachable global order: the first session persists and broadcasts
`"m1"`, then the second session runs to completion during the first
session's 4-second sleep, then the first session finishes. -/
def c9badLog : List Effect :=
  c9effA.take 2 ++ c9effB ++ c9effA.drop 2

/-- Provider trace for the C4 scenario: the initial poll sees no
in-progress run (so the append loop starts at once), every append is
rejected with the "Can't add messages to" error, and the poll after the
forced-completion block observes the stuck run (id 7) once before it
completes on its own. -/
def c4trace : ProviderTrace where
  listRuns k := if k = 1 then [⟨7, "in_progress"⟩] else []
  createMsg _ := .cantAdd "Can't add messages to thread"
  submitOutcome _ := none

/-- An empty user registry. -/
def emptyRegistry : Registry := fun _ => none

/-- Empty database. -/
def dbEmpty : DB := ⟨[], [], []⟩

/-- A database with one user `"u1"` owning one (empty) thread. -/
def dbOneUser : DB := ⟨[⟨1, "u1"⟩], [⟨1, 1, 0⟩], []⟩

/-- A non-action manager-send payload for `"u1"`. -/
def pManagerHi : ManagerSendPayload := ⟨some "u1", some "hi", none, none⟩

/-- A database with two users: `"alice1"` has a thread with one message,
`"bobby2"` has an empty thread. -/
def dbTwoUsers : DB :=
  ⟨[⟨1, "alice1"⟩, ⟨2, "bobby2"⟩],
   [⟨1, 1, 0⟩, ⟨2, 2, 0⟩],
   [⟨1, "user", "hi", 10⟩]⟩

/-! ## Theorems -/

/-- Claim C1: for every inbound user message, membership of the sender's
identity in the handoff set is the sole gate on the reply path — if the
identity is a member, the turn's effects are exactly persisting and
broadcasting the user message (no bot reply is persisted or delivered);
if it is not a member, a bot reply is delivered to the user (AI or echo
path); and the turn's behaviour depends on the handoff set only through
the membership bit. -/
theorem c1_membership_sole_gate (cfg : Config) (handoff : List String)
    (chatId : String) (threadId tU tB : Nat) (text : String)
    (ai : AIOutcome) :
    (chatId ∈ handoff →
      processUserMessage cfg handoff chatId threadId tU tB text ai =
        [Effect.persist ⟨threadId, "user", text, tU⟩,
         Effect.broadcastManagers ⟨chatId, "message", text, "user"⟩])
  ∧ (chatId ∉ handoff →
      ∃ f : UserFrame, Effect.sendUser chatId f ∈
        processUserMessage cfg handoff chatId threadId tU tB text ai ∧
        f.sender = "bot")
  ∧ (∀ handoff2 : List String,
      (chatId ∈ handoff ↔ chatId ∈ handoff2) →
      processUserMessage cfg handoff chatId threadId tU tB text ai =
        processUserMessage cfg handoff2 chatId threadId tU tB text ai) := by
  refine ⟨fun h => by simp [processUserMessage, h], fun h => ?_, ?_⟩
  · by_cases hc : cfg.aiConfigured
    · cases ai with
      | ok r =>
          exact ⟨⟨"message", r, "bot"⟩, by simp [processUserMessage, h, hc], rfl⟩
      | error e =>
          exact ⟨⟨"message", "Openai error: " ++ e ++ ".", "bot"⟩,
            by simp [processUserMessage, h, hc], rfl⟩
    · exact ⟨⟨"message", "Bot echo: " ++ text, "bot"⟩,
        by simp [processUserMessage, h, hc], rfl⟩
  · intro handoff2 he
    by_cases hm : chatId ∈ handoff
    · simp [processUserMessage, hm, he.mp hm]
    · have hm2 : chatId ∉ handoff2 := fun h2 => hm (he.mpr h2)
      simp [processUserMessage, hm, hm2]

/-- Concrete instantiation of `c1_membership_sole_gate`, discharging each
of its hypotheses. -/
theorem c1_membership_sole_gate_witness :
    (processUserMessage cfgUnset ["u"] "u" 0 0 4 "hi" (.error "") =
      [Effect.persist ⟨0, "user", "hi", 0⟩,
       Effect.broadcastManagers ⟨"u", "message", "hi", "user"⟩])
  ∧ (∃ f : UserFrame, Effect.sendUser "u" f ∈
      processUserMessage cfgUnset [] "u" 0 0 4 "hi" (.error "") ∧
      f.sender = "bot")
  ∧ (processUserMessage cfgUnset ["u"] "u" 0 0 4 "hi" (.error "") =
      processUserMessage cfgUnset ["v", "u"] "u" 0 0 4 "hi" (.error "")) :=
  ⟨(c1_membership_sole_gate cfgUnset ["u"] "u" 0 0 4 "hi" (.error "")).1
      (by decide),
   (c1_membership_sole_gate cfgUnset [] "u" 0 0 4 "hi" (.error "")).2.1
      (by decide),
   (c1_membership_sole_gate cfgUnset ["u"] "u" 0 0 4 "hi" (.error "")).2.2
      ["v", "u"] (by decide)⟩

/-- Claim C2 as stated is false: with AI not configured, the message
`"hello"` yields a persisted bot reply whose body is `"Bot echo: hello"`,
not `"echo: hello"`. -/
theorem c2_counterexample :
    botBodies (processUserMessage cfgUnset [] "u" 0 0 4 "hello" (.error ""))
      = ["Bot echo: hello"]
  ∧ "Bot echo: hello" ≠ "echo: hello" := by
  exact ⟨by decide, by decide⟩

/-- Claim C2 amended: when AI is not configured and the identity is
unclaimed, an inbound user message with text `t` yields, after the fixed
4-second simulated-thinking delay, a bot reply persisted and delivered
with body exactly `"Bot echo: "` followed by `t`. -/
theorem c2_echo_reply (cfg : Config) (handoff : List String)
    (chatId : String) (threadId tU tB : Nat) (text : String)
    (ai : AIOutcome) (hcfg : cfg.aiConfigured = false)
    (hun : chatId ∉ handoff) :
    processUserMessage cfg handoff chatId threadId tU tB text ai =
      [Effect.persist ⟨threadId, "user", text, tU⟩,
       Effect.broadcastManagers ⟨chatId, "message", text, "user"⟩,
       Effect.sleep 4,
       Effect.persist ⟨threadId, "bot", "Bot echo: " ++ text, tB⟩,
       Effect.sendUser chatId ⟨"message", "Bot echo: " ++ text, "bot"⟩,
       Effect.broadcastManagers
         ⟨chatId, "message", "Bot echo: " ++ text, "bot"⟩] := by
  simp [processUserMessage, hcfg, hun]

/-- Concrete instantiation of `c2_echo_reply` at the message `"hello"`. -/
theorem c2_echo_reply_witness :
    processUserMessage cfgUnset [] "u" 0 0 4 "hello" (.error "") =
      [Effect.persist ⟨0, "user", "hello", 0⟩,
       Effect.broadcastManagers ⟨"u", "message", "hello", "user"⟩,
       Effect.sleep 4,
       Effect.persist ⟨0, "bot", "Bot echo: " ++ "hello", 4⟩,
       Effect.sendUser "u" ⟨"message", "Bot echo: " ++ "hello", "bot"⟩,
       Effect.broadcastManagers
         ⟨"u", "message", "Bot echo: " ++ "hello", "bot"⟩] :=
  c2_echo_reply cfgUnset [] "u" 0 0 4 "hello" (.error "")
    (by decide) (by decide)

/-- Claim C3 as stated is false: after `"u"` connects with connection 1
and reconnects with connection 2, the stale session owning connection 1
calls `disconnect("u")` and the registry entry — the newer connection 2 —
is removed: `disconnect` is keyed on the identity alone and never
compares connections. -/
theorem c3_counterexample :
    (((emptyRegistry.connect "u" 1).connect "u" 2).disconnect "u") "u" = none
  ∧ ((emptyRegistry.connect "u" 1).connect "u" 2) "u" = some 2 := by
  constructor <;> rfl

/-- Claim C3 amended: `disconnect(identity)` removes the identity's entry
unconditionally whenever one is registered, whichever connection the
caller owns — so a stale disconnect does remove a newer connection; other
identities' entries are untouched. -/
theorem c3_disconnect_unconditional (m : Registry) (c x : String)
    (w wNew : Nat) :
    ((((m.connect c w).connect c wNew).disconnect c) c = none)
  ∧ (x ≠ c → (m.disconnect c) x = m x) := by
  constructor
  · simp [Registry.connect, Registry.disconnect]
  · intro h
    simp [Registry.disconnect, h]

/-- Concrete instantiation of `c3_disconnect_unconditional`. -/
theorem c3_disconnect_unconditional_witness :
    ((((emptyRegistry.connect "u" 1).connect "u" 2).disconnect "u") "u" = none)
  ∧ ((emptyRegistry.disconnect "u") "v" = emptyRegistry "v") :=
  ⟨(c3_disconnect_unconditional emptyRegistry "u" "v" 1 2).1,
   (c3_disconnect_unconditional emptyRegistry "u" "v" 1 2).2 (by decide)⟩

/-- The polling loop only exits with the empty list as its last-observed
`active_runs` value. -/
theorem waitNoActive_active_nil (tr : ProviderTrace) :
    ∀ (fuel : Nat) (s s' : AIState) (l : List Nat),
      waitNoActive tr s fuel = (s', some l) → l = [] := by
  intro fuel
  induction fuel with
  | zero =>
      intro s s' l h
      simp [waitNoActive] at h
  | succ n ih =>
      intro s s' l h
      rw [waitNoActive] at h
      by_cases hA : (inProgressIds (tr.listRuns s.kList)).isEmpty
      · rw [if_pos hA] at h
        rw [Prod.mk.injEq] at h
        obtain ⟨-, h2⟩ := h
        injection h2 with h3
        rw [← h3]
        exact List.isEmpty_iff.mp hA
      · rw [if_neg hA] at h
        exact ih _ _ _ h

/-- The polling loop never touches the submitted-completions log. -/
theorem waitNoActive_submitted (tr : ProviderTrace) :
    ∀ (fuel : Nat) (s : AIState),
      ((waitNoActive tr s fuel).1).submitted = s.submitted := by
  intro fuel
  induction fuel with
  | zero => intro s; rfl
  | succ n ih =>
      intro s
      rw [waitNoActive]
      by_cases hA : (inProgressIds (tr.listRuns s.kList)).isEmpty
      · rw [if_pos hA]
      · rw [if_neg hA]
        exact ih _

/-- The bounded append loop never touches the submitted-completions
log. -/
theorem appendAttempts_submitted (tr : ProviderTrace) :
    ∀ (n : Nat) (s : AIState),
      ((appendAttempts tr s n).1).submitted = s.submitted := by
  intro n
  induction n with
  | zero => intro s; rfl
  | succ k ih =>
      intro s
      rw [appendAttempts]
      cases tr.createMsg s.kCreate with
      | ok => rfl
      | cantAdd e => exact ih _
      | otherBad e => rfl

/-- Claim C4 is the documented intent, but the code never performs the
forced completion: whenever the retry limit is hit, the `for run in
active_runs` loop ranges over the last value of `active_runs`, which the
initial polling loop left empty — so `add_user_message` submits no
synthetic completion on any trace.  On the concrete failing trace
(`c4trace`: no run in progress initially, every append rejected with
"Can't add messages to thread", run 7 observed in progress right after
the dead forced-completion block) the call ends by re-raising the append
error with an empty submission log, even though the code itself observed
the outstanding in-progress run. -/
theorem c4_no_synthetic_completion :
    (∀ (tr : ProviderTrace) (fuel : Nat),
      ((add_user_message tr fuel).1).submitted = [])
  ∧ add_user_message c4trace 10 =
      ((add_user_message c4trace 10).1, .raised "Can't add messages to thread")
  ∧ ((add_user_message c4trace 10).1).submitted = []
  ∧ inProgressIds (c4trace.listRuns 1) = [7] := by
  refine ⟨?_, by decide, by decide, by decide⟩
  intro tr fuel
  simp only [add_user_message]
  split
  next s1 heq1 =>
    have h := waitNoActive_submitted tr fuel ⟨0, 0, 0, [], 0⟩
    rw [heq1] at h
    simpa using h
  next s1 ar heq1 =>
    have hs1 : s1.submitted = [] := by
      have h := waitNoActive_submitted tr fuel ⟨0, 0, 0, [], 0⟩
      rw [heq1] at h
      simpa using h
    have hnil : ar = [] := waitNoActive_active_nil tr fuel _ _ _ heq1
    split
    next s2 heq2 =>
      have h := appendAttempts_submitted tr 5 s1
      rw [heq2] at h
      simpa [hs1] using h
    next s2 e heq2 =>
      have h := appendAttempts_submitted tr 5 s1
      rw [heq2] at h
      simpa [hs1] using h
    next s2 heq2 =>
      have hs2 : s2.submitted = [] := by
        have h := appendAttempts_submitted tr 5 s1
        rw [heq2] at h
        simpa [hs1] using h
      rw [hnil]
      simp only [forceCompleteRuns]
      split
      next s4 heq3 =>
        have h := waitNoActive_submitted tr fuel s2
        rw [heq3] at h
        simpa [hs2] using h
      next s4 l heq3 =>
        have hs4 : s4.submitted = [] := by
          have h := waitNoActive_submitted tr fuel s2
          rw [heq3] at h
          simpa [hs2] using h
        split <;> simpa using hs4

/-- Claim C5: a manager-send payload lacking the `message` field (or the
`chat_id` field) is rejected with the 400 client error before anything
else happens: no persistence, no delivery, no handoff-membership
change. -/
theorem c5_missing_field_rejected (p : ManagerSendPayload)
    (handoff : List String) (db : DB) (now : Nat)
    (h : p.message = none ∨ p.chat_id = none) :
    send_manager_message p handoff db now =
      ⟨.clientError 400 "chat_id and message are required", handoff, []⟩ := by
  rcases h with h | h <;> simp [send_manager_message, truthyStr, h]

/-- Concrete instantiations of `c5_missing_field_rejected`: a payload
missing `message`, and one missing `chat_id`. -/
theorem c5_missing_field_rejected_witness :
    send_manager_message ⟨some "u1", none, none, none⟩ ["x"] dbOneUser 3 =
      ⟨.clientError 400 "chat_id and message are required", ["x"], []⟩
  ∧ send_manager_message ⟨none, some "hi", none, some true⟩ [] dbOneUser 3 =
      ⟨.clientError 400 "chat_id and message are required", [], []⟩ :=
  ⟨c5_missing_field_rejected ⟨some "u1", none, none, none⟩ ["x"] dbOneUser 3
      (Or.inl rfl),
   c5_missing_field_rejected ⟨none, some "hi", none, some true⟩ [] dbOneUser 3
      (Or.inr rfl)⟩

/-- Claim C6 as stated is false: the history surface answers an unknown
identity with the successful empty list (`return []`) — HTTP 200 — not
with a NotFound client error. -/
theorem c6_counterexample :
    get_chat_history "u" dbEmpty = .ok []
  ∧ (get_chat_history "u" dbEmpty).isClientError = false :=
  ⟨rfl, rfl⟩

/-- Claim C6 amended: for an unknown identity — no user row, or a user
without any conversation — the history surface responds with the
successful empty history `[]` rather than a NotFound error. -/
theorem c6_unknown_identity_empty (chatId : String) (db : DB) :
    (db.findUser chatId = none → get_chat_history chatId db = .ok [])
  ∧ (∀ u : DBUser, db.findUser chatId = some u →
      db.latestThread u.id = none → get_chat_history chatId db = .ok []) := by
  constructor
  · intro h
    simp [get_chat_history, h]
  · intro u h1 h2
    simp [get_chat_history, h1, h2]

/-- Concrete instantiations of `c6_unknown_identity_empty`: an empty
store, and a store holding the user `"u"` with no thread. -/
theorem c6_unknown_identity_empty_witness :
    get_chat_history "u" dbEmpty = .ok []
  ∧ get_chat_history "u" ⟨[⟨1, "u"⟩], [], []⟩ = .ok [] :=
  ⟨(c6_unknown_identity_empty "u" dbEmpty).1 (by decide),
   (c6_unknown_identity_empty "u" ⟨[⟨1, "u"⟩], [], []⟩).2 ⟨1, "u"⟩
      (by decide) (by decide)⟩

/-- Claim C7 is the evident intent, but the code breaks it on the
manager-send broadcast path: broadcasting a non-action manager message
sends the sender string `"manager "` — with a trailing space, line 331 —
which is none of the four sender strings; the user-directed frame of the
same request carries `"manager"` correctly. -/
theorem c7_broadcast_sender_trailing_space :
    send_manager_message pManagerHi [] dbOneUser 5 =
      ⟨.ok, [],
       [Effect.persist ⟨1, "manager", "hi", 5⟩,
        Effect.sendUser "u1" ⟨"message", "hi", "manager"⟩,
        Effect.broadcastManagers ⟨"u1", "message", "hi", "manager "⟩]⟩
  ∧ "manager " ∉ ["user", "bot", "manager", "action"] :=
  ⟨by decide, by decide⟩

/-- The sort-key order is total. -/
theorem keyLe_total (x y : Option Nat) : keyLe x y = true ∨ keyLe y x = true := by
  cases x <;> cases y <;> simp [keyLe] ; omega

/-- The sort-key order is transitive. -/
theorem keyLe_trans (x y z : Option Nat) (h1 : keyLe x y = true)
    (h2 : keyLe y z = true) : keyLe x z = true := by
  cases x <;> cases y <;> cases z <;> simp_all [keyLe] ; omega

/-- A user with at least one thread row has a latest thread. -/
theorem latestThread_isSome (db : DB) (uid : Nat)
    (h : ∃ t ∈ db.threads, t.user_id = uid) :
    (db.latestThread uid).isSome := by
  obtain ⟨t, ht, htu⟩ := h
  have hmem : t ∈ db.threads.filter (fun t => t.user_id == uid) := by
    simp [List.mem_filter, ht, htu]
  have hmem2 : t ∈ List.insertionSort (fun a b => b.created_at ≤ a.created_at)
      (db.threads.filter (fun t => t.user_id == uid)) :=
    ((List.perm_insertionSort _ _).mem_iff).mpr hmem
  unfold DB.latestThread
  cases hl : List.insertionSort (fun a b => b.created_at ≤ a.created_at)
      (db.threads.filter (fun t => t.user_id == uid)) with
  | nil =>
      rw [hl] at hmem2
      cases hmem2
  | cons a l =>
      rfl

/-- `filterMap` by a function that hits `some` on every element of the
list preserves the length. -/
theorem length_filterMap_all_some {α β : Type} (f : α → Option β) :
    ∀ l : List α, (∀ a ∈ l, (f a).isSome) →
      (l.filterMap f).length = l.length := by
  intro l
  induction l with
  | nil => intro _; rfl
  | cons a t ih =>
      intro h
      have ha : (f a).isSome := h a (List.mem_cons_self a t)
      obtain ⟨b, hb⟩ := Option.isSome_iff_exists.mp ha
      have ht := ih (fun x hx => h x (List.mem_cons_of_mem a hx))
      simp [List.filterMap_cons, hb, ht]

/-- The only operation that creates users — the provisioning block at
connection time — keeps the invariant that every user row has at least
one thread row (a fresh user gets a fresh thread in the same
transaction, and a threadless user gets one on reconnect). -/
theorem connectSetup_every_user_has_thread (db : DB) (chatId : String)
    (newUserId newThreadId now : Nat)
    (h : ∀ u ∈ db.users, ∃ t ∈ db.threads, t.user_id = u.id) :
    ∀ u ∈ (connectSetup db chatId newUserId newThreadId now).users,
      ∃ t ∈ (connectSetup db chatId newUserId newThreadId now).threads,
        t.user_id = u.id := by
  cases hf : db.findUser chatId with
  | none =>
      intro u hu
      simp only [connectSetup, hf, List.mem_append] at hu ⊢
      rcases hu with hu | hu
      · obtain ⟨t, ht, htu⟩ := h u hu
        exact ⟨t, Or.inl ht, htu⟩
      · simp only [List.mem_singleton] at hu
        subst hu
        exact ⟨⟨newThreadId, newUserId, now⟩, by simp, rfl⟩
  | some u0 =>
      cases hl : db.latestThread u0.id with
      | none =>
          intro u hu
          simp only [connectSetup, hf, hl, List.mem_append] at hu ⊢
          obtain ⟨t, ht, htu⟩ := h u hu
          exact ⟨t, Or.inl ht, htu⟩
      | some t0 =>
          intro u hu
          simp only [connectSetup, hf, hl] at hu ⊢
          exact h u hu

/-- Claim C8: when every known user has at least one conversation — the
invariant the provisioning path maintains
(`connectSetup_every_user_has_thread`) — the manager listing surface
returns one entry per known user (each built from that user's latest
thread's full history with the display label, via `mkChatEntry`), omits
none, and is sorted by last-message timestamp descending with
zero-message users after all users with messages (the
`keyLe`-descending pairwise order). -/
theorem c8_manager_listing (db : DB)
    (hthreads : ∀ u ∈ db.users, ∃ t ∈ db.threads, t.user_id = u.id) :
    (∀ u ∈ db.users, ∃ e ∈ get_manager_chats db, mkChatEntry db u = some e)
  ∧ (get_manager_chats db).length = db.users.length
  ∧ List.Pairwise
      (fun a b => keyLe (chatSortKey b) (chatSortKey a) = true)
      (get_manager_chats db) := by
  have hperm : (get_manager_chats db).Perm (db.users.filterMap (mkChatEntry db)) :=
    List.perm_insertionSort _ _
  have hsome : ∀ u ∈ db.users, (mkChatEntry db u).isSome := by
    intro u hu
    have := latestThread_isSome db u.id (hthreads u hu)
    unfold mkChatEntry
    cases hl : db.latestThread u.id with
    | none => rw [hl] at this; cases this
    | some t => rfl
  refine ⟨?_, ?_, ?_⟩
  · intro u hu
    obtain ⟨e, he⟩ := Option.isSome_iff_exists.mp (hsome u hu)
    refine ⟨e, ?_, he⟩
    exact (hperm.mem_iff).mpr (List.mem_filterMap.mpr ⟨u, hu, he⟩)
  · rw [hperm.length_eq]
    exact length_filterMap_all_some (mkChatEntry db) db.users hsome
  · have htot : ∀ a b : ChatEntry,
        keyLe (chatSortKey b) (chatSortKey a) = true ∨
        keyLe (chatSortKey a) (chatSortKey b) = true := by
      intro a b
      exact keyLe_total (chatSortKey b) (chatSortKey a)
    haveI : IsTotal ChatEntry
        (fun a b => keyLe (chatSortKey b) (chatSortKey a) = true) :=
      ⟨fun a b => htot a b⟩
    haveI : IsTrans ChatEntry
        (fun a b => keyLe (chatSortKey b) (chatSortKey a) = true) :=
      ⟨fun a b c h1 h2 => keyLe_trans _ _ _ h2 h1⟩
    exact List.sorted_insertionSort
      (fun a b => keyLe (chatSortKey b) (chatSortKey a) = true)
      (db.users.filterMap (mkChatEntry db))

/-- Concrete instantiation of `c8_manager_listing` on a store with a
user with one message and a user with none. -/
theorem c8_manager_listing_witness :
    (∀ u ∈ dbTwoUsers.users,
      ∃ e ∈ get_manager_chats dbTwoUsers, mkChatEntry dbTwoUsers u = some e)
  ∧ (get_manager_chats dbTwoUsers).length = dbTwoUsers.users.length
  ∧ List.Pairwise
      (fun a b => keyLe (chatSortKey b) (chatSortKey a) = true)
      (get_manager_chats dbTwoUsers) :=
  c8_manager_listing dbTwoUsers (by decide)

/-- `botBodies` distributes over concatenation. -/
theorem botBodies_append (l1 l2 : List Effect) :
    botBodies (l1 ++ l2) = botBodies l1 ++ botBodies l2 :=
  List.filterMap_append l1 l2 _

/-- `persistedBodies` distributes over concatenation. -/
theorem persistedBodies_append (l1 l2 : List Effect) :
    persistedBodies (l1 ++ l2) = persistedBodies l1 ++ persistedBodies l2 :=
  List.filterMap_append l1 l2 _

/-- Claim C9 as stated is false: the handler has no per-identity
sequencing, so when a second live connection for the same identity (the
registry's last-connect-wins replacement leaves the superseded socket
running) handles a second message concurrently, a reachable interleaving
lets the second message's whole orchestration run inside the first
message's turn — here during its 4-second echo sleep — persisting the
second reply before the first: persistence order
`m1, m2, echo(m2), echo(m1)` although `m1` was received (and persisted)
first. -/
theorem c9_counterexample :
    IsInterleaving c9effA c9effB c9badLog
  ∧ persistedBodies c9badLog =
      ["m1", "m2", "Bot echo: m2", "Bot echo: m1"] :=
  ⟨.left (.left (.right (.right (.right (.right (.right (.right (.left
      (.left (.left (.left .nil))))))))))),
   by decide⟩

/-- Claim C9 amended: messages received on a SINGLE connection are
processed strictly sequentially — the receive loop only awaits the next
frame after the previous turn's persistence-and-delivery sequence
completed — so on the echo path the persistence order is exactly
`m₁, reply(m₁), m₂, reply(m₂), …`, with replies in arrival order, never
interleaved; the original claim's guarantee does not extend to two
concurrent connections for the same identity (`c9badLog` shape). -/
theorem c9_single_connection_order (cfg : Config) (handoff : List String)
    (chatId : String) (threadId : Nat)
    (msgs : List (String × Nat × Nat × AIOutcome))
    (hcfg : cfg.aiConfigured = false) (hun : chatId ∉ handoff) :
    botBodies (userLoopEffects cfg handoff chatId threadId msgs) =
      msgs.map (fun m => "Bot echo: " ++ m.1)
  ∧ persistedBodies (userLoopEffects cfg handoff chatId threadId msgs) =
      (msgs.map (fun m => [m.1, "Bot echo: " ++ m.1])).flatten := by
  induction msgs with
  | nil => exact ⟨rfl, rfl⟩
  | cons m rest ih =>
      obtain ⟨ih1, ih2⟩ := ih
      obtain ⟨t, tU, tB, ai⟩ := m
      have hTurn : processUserMessage cfg handoff chatId threadId tU tB t ai =
          [Effect.persist ⟨threadId, "user", t, tU⟩,
           Effect.broadcastManagers ⟨chatId, "message", t, "user"⟩,
           Effect.sleep 4,
           Effect.persist ⟨threadId, "bot", "Bot echo: " ++ t, tB⟩,
           Effect.sendUser chatId ⟨"message", "Bot echo: " ++ t, "bot"⟩,
           Effect.broadcastManagers
             ⟨chatId, "message", "Bot echo: " ++ t, "bot"⟩] := by
        simp [processUserMessage, hcfg, hun]
      have hcons : userLoopEffects cfg handoff chatId threadId
            ((t, tU, tB, ai) :: rest) =
          processUserMessage cfg handoff chatId threadId tU tB t ai ++
            userLoopEffects cfg handoff chatId threadId rest := by
        simp [userLoopEffects]
      constructor
      · rw [hcons, botBodies_append, hTurn, ih1]
        simp [botBodies]
      · rw [hcons, persistedBodies_append, hTurn, ih2]
        simp [persistedBodies]

/-- Concrete instantiation of `c9_single_connection_order`: two messages
on one connection yield replies persisted in arrival order. -/
theorem c9_single_connection_order_witness :
    botBodies (userLoopEffects cfgUnset [] "u" 0
        [("a", 0, 1, Except.error ""), ("b", 2, 3, Except.error "")]) =
      ["Bot echo: a", "Bot echo: b"]
  ∧ persistedBodies (userLoopEffects cfgUnset [] "u" 0
        [("a", 0, 1, Except.error ""), ("b", 2, 3, Except.error "")]) =
      ["a", "Bot echo: a", "b", "Bot echo: b"] :=
  c9_single_connection_order cfgUnset [] "u" 0
    [("a", 0, 1, Except.error ""), ("b", 2, 3, Except.error "")]
    (by decide) (by decide)

/-- Claim C10: a manager-send request holding both required fields plus a
`managerStatus` flag applies the claim/release toggle to the handoff set
before the user lookup, so for an unknown identity the call answers the
404 NotFound client error while the membership change has already taken
effect — in particular a claim of a previously unclaimed identity leaves
it claimed despite the error. -/
theorem c10_toggle_before_lookup (p : ManagerSendPayload)
    (handoff : List String) (db : DB) (now : Nat) (b : Bool) (c : String)
    (hc : p.chat_id = some c) (hcne : c ≠ "")
    (hm : truthyStr p.message = true)
    (hs : p.managerStatus = some b)
    (hu : db.findUser c = none) :
    send_manager_message p handoff db now =
      ⟨.clientError 404 "User not found",
       if b then setAdd handoff c else setDiscard handoff c, []⟩
  ∧ (b = true → c ∉ handoff →
      c ∈ (send_manager_message p handoff db now).handoff) := by
  have h1 : send_manager_message p handoff db now =
      ⟨.clientError 404 "User not found",
       if b then setAdd handoff c else setDiscard handoff c, []⟩ := by
    have hct : truthyStr (some c) = true := by simp [truthyStr, hcne]
    cases b <;> simp [send_manager_message, hc, hct, hm, hs, hu]
  refine ⟨h1, ?_⟩
  intro hb hcm
  rw [h1, hb]
  simp [setAdd, hcm]

/-- Concrete instantiation of `c10_toggle_before_lookup`: claiming the
unknown identity `"ghost"` yields the 404 error yet leaves `"ghost"`
claimed. -/
theorem c10_toggle_before_lookup_witness :
    (send_manager_message ⟨some "ghost", some "hi", none, some true⟩ []
        dbEmpty 0 =
      ⟨.clientError 404 "User not found",
       if true then setAdd [] "ghost" else setDiscard [] "ghost", []⟩)
  ∧ "ghost" ∈ (send_manager_message ⟨some "ghost", some "hi", none, some true⟩
        [] dbEmpty 0).handoff :=
  ⟨(c10_toggle_before_lookup ⟨some "ghost", some "hi", none, some true⟩ []
      dbEmpty 0 true "ghost" rfl (by decide) (by decide) rfl (by decide)).1,
   (c10_toggle_before_lookup ⟨some "ghost", some "hi", none, some true⟩ []
      dbEmpty 0 true "ghost" rfl (by decide) (by decide) rfl (by decide)).2
      rfl (by decide)⟩

end Chat

